import Mathlib

/-!
Verification of the `FragmentCache` subsystem of WxeUI
(src/src/cache/fragment_cache.h / fragment_cache.cc).

The cache is a three-level store (L1_GPU / L2_RAM / L3_DISK in the code;
Fast / Medium / Slow in the specification).  Each level holds a key → entry
map plus an LRU recency index; the disk level additionally persists each
entry's bytes to a file and optionally compresses them with zlib.

Shallow embedding conventions:
* `std::unordered_map<std::string, ...>` becomes an association list with
  unique keys (`lookupA` / `insertA` / `eraseA` mirror `find` /
  `operator[]=` / `erase`).
* The `LRUCache` doubly-linked list (head = most recently used) becomes a
  `List String` in most-recent-first order.  `Access` = move/insert at the
  front, `GetLRU` = last element, `Remove` = erase.
* `std::chrono::steady_clock` timestamps become a `Nat` tick counter stored
  in the state (`now`); the environment advances it between operations.
* zlib is modelled by an executable codec with an exact round trip:
  `compress2` into a `compressBound`-sized buffer always succeeds (`Z_OK`),
  and `uncompress` succeeds exactly when the decompressed size fits the
  fixed 10 MiB output buffer that `FragmentCache::Decompress` allocates
  (otherwise `Z_BUF_ERROR`, and the code returns its input unchanged).
* File I/O: `SaveToFile` writes key-indexed bytes into `files` (the hash
  `GetFilePath` uses is injective per key in the model); its success is an
  environment event, passed to `Put`/`PutToLevel` as an explicit `ioOk`
  argument (`ioOk = true` for claims not about I/O failure).  A failed save
  leaves the file map unchanged (the open-fails mode of `std::ofstream`).
* `current_size >= max_size * 0.9` (a `double` comparison in C++) is
  modelled exactly as `9 * max_size ≤ 10 * current_size`.
-/

namespace WxeUI

set_option maxRecDepth 10000

/-- Byte buffers (`std::vector<uint8_t>`); each element is one byte. -/
abbrev Bytes := List Nat

/-- `unordered_map::find` on an association list. -/
def lookupA {α : Type} : List (String × α) → String → Option α
| [], _ => none
| (k', v) :: rest, k => if k' = k then some v else lookupA rest k

/-- `unordered_map::operator[] =` : replace the binding in place, or append. -/
def insertA {α : Type} : List (String × α) → String → α → List (String × α)
| [], k, v => [(k, v)]
| (k', v') :: rest, k, v =>
    if k' = k then (k, v) :: rest else (k', v') :: insertA rest k v

/-- `unordered_map::erase` : drop the (unique) binding for the key. -/
def eraseA {α : Type} : List (String × α) → String → List (String × α)
| [], _ => []
| (k', v') :: rest, k => if k' = k then rest else (k', v') :: eraseA rest k

/-- `LRUCache::Access` : move the key's node to the head, inserting it if it
was not tracked (both cases reduce to cons-after-erase). -/
def lruAccess (l : List String) (k : String) : List String :=
  k :: l.erase k

/-- `LRUCache::GetLRU` : key of the node just before the tail, i.e. the last
element of the most-recent-first list (`none` for the empty index, where the
code returns the empty string). -/
def getLRUkey (l : List String) : Option String :=
  l.getLast?

/-- `CacheLevel` from fragment_cache.h. -/
inductive CacheLevel
| L1_GPU
| L2_RAM
| L3_DISK
deriving DecidableEq, Repr

/-- `CacheEntry` from fragment_cache.h (timestamps as `Nat` ticks). -/
structure CacheEntry where
  data : Bytes
  size : Nat
  last_access : Nat
  creation_time : Nat
  access_count : Nat
  compressed : Bool
  level : CacheLevel
  key : String
deriving DecidableEq, Repr

/-- One cache level: its entry map (`lN_cache_`) plus its LRU index
(`lN_lru_`), most-recent-first. -/
structure Tier where
  map : List (String × CacheEntry)
  lru : List String
deriving DecidableEq, Repr

/-- `FragmentCache::Config` (fields the cache logic reads). -/
structure Config where
  max_l1_size : Nat
  max_l2_size : Nat
  max_l3_size : Nat
  compression_threshold : Nat
  max_age : Nat
  enable_compression : Bool
  compression_level : Nat
deriving DecidableEq, Repr

/-- The whole `FragmentCache` object: three tiers, the disk directory
(`files`), the `CacheStats` counters, and the current clock tick. -/
structure CacheState where
  config : Config
  l1 : Tier
  l2 : Tier
  l3 : Tier
  files : List (String × Bytes)
  hits : Nat
  misses : Nat
  total_size : Nat
  entry_count : Nat
  evictions : Nat
  now : Nat
deriving DecidableEq, Repr

/-- Fresh cache as built by the constructor (empty tiers, zeroed stats,
empty cache directory). -/
def initState (cfg : Config) : CacheState :=
  { config := cfg, l1 := ⟨[], []⟩, l2 := ⟨[], []⟩, l3 := ⟨[], []⟩,
    files := [], hits := 0, misses := 0, total_size := 0, entry_count := 0,
    evictions := 0, now := 0 }

/-- Passage of wall-clock time between cache operations (the environment
advancing `steady_clock`). -/
def withNow (s : CacheState) (t : Nat) : CacheState :=
  { s with now := t }

/-- Select a level's tier. -/
def getTier (s : CacheState) : CacheLevel → Tier
| CacheLevel.L1_GPU => s.l1
| CacheLevel.L2_RAM => s.l2
| CacheLevel.L3_DISK => s.l3

/-- A level's configured byte cap (`max_lN_size`). -/
def tierCap (cfg : Config) : CacheLevel → Nat
| CacheLevel.L1_GPU => cfg.max_l1_size
| CacheLevel.L2_RAM => cfg.max_l2_size
| CacheLevel.L3_DISK => cfg.max_l3_size

/-- Sum of the stored sizes of a map's entries. -/
def mapBytes : List (String × CacheEntry) → Nat
| [] => 0
| p :: rest => p.2.size + mapBytes rest

/-- `FragmentCache::GetCurrentSize` : total stored bytes of one level. -/
def GetCurrentSize (s : CacheState) (lvl : CacheLevel) : Nat :=
  mapBytes (getTier s lvl).map

/-- `FragmentCache::GetEntryCount` : number of entries in one level. -/
def GetEntryCount (s : CacheState) (lvl : CacheLevel) : Nat :=
  (getTier s lvl).map.length

/-- `FragmentCache::NeedEviction` : `current_size >= max_size * 0.9`,
modelled in exact arithmetic. -/
def NeedEviction (s : CacheState) (lvl : CacheLevel) : Prop :=
  9 * tierCap s.config lvl ≤ 10 * GetCurrentSize s lvl

instance (s : CacheState) (lvl : CacheLevel) : Decidable (NeedEviction s lvl) :=
  inferInstanceAs (Decidable (9 * tierCap s.config lvl ≤ 10 * GetCurrentSize s lvl))

/-- Output-buffer size hard-coded in `FragmentCache::Decompress`
(`10 * 1024 * 1024`). -/
def MAX_DECOMPRESSED_SIZE : Nat := 10 * 1024 * 1024

/-- `FragmentCache::Compress` : zlib `compress2` modelled as a header-prefixed
exact codec (`compress2` into a `compressBound` buffer returns `Z_OK`, so no
fallback branch is taken). -/
def Compress (d : Bytes) : Bytes :=
  d.length :: d

/-- `FragmentCache::Decompress` : `uncompress` into a fixed 10 MiB buffer.
It succeeds exactly when the input is a valid compressed stream whose
decompressed size fits the buffer; on any failure the code returns the
still-compressed input. -/
def Decompress (b : Bytes) : Bytes :=
  match b with
  | [] => b
  | n :: rest =>
      if rest.length = n then
        if n ≤ MAX_DECOMPRESSED_SIZE then rest else b
      else b

/-- The compression condition in `FragmentCache::PutToLevel` : disk level,
compression enabled, and payload at least `compression_threshold` bytes. -/
def shouldCompress (cfg : Config) (lvl : CacheLevel) (d : Bytes) : Bool :=
  lvl = CacheLevel.L3_DISK && cfg.enable_compression &&
    cfg.compression_threshold ≤ d.length

/-- Bytes actually stored for a payload at a level (compressed or raw). -/
def storedBytes (cfg : Config) (lvl : CacheLevel) (d : Bytes) : Bytes :=
  if shouldCompress cfg lvl d then Compress d else d

/-- `FragmentCache::GetFromLevel` : look the key up in one level; on a hit
refresh `last_access`/`access_count` and return the bytes — for the disk
level the bytes are read back from the file and decompressed when the entry
is flagged compressed. -/
def GetFromLevel (s : CacheState) (k : String) :
    CacheLevel → Option Bytes × CacheState
| CacheLevel.L1_GPU =>
    match lookupA s.l1.map k with
    | some e =>
        let e' : CacheEntry :=
          { e with last_access := s.now, access_count := e.access_count + 1 }
        (some e.data, { s with l1 := { s.l1 with map := insertA s.l1.map k e' } })
    | none => (none, s)
| CacheLevel.L2_RAM =>
    match lookupA s.l2.map k with
    | some e =>
        let e' : CacheEntry :=
          { e with last_access := s.now, access_count := e.access_count + 1 }
        (some e.data, { s with l2 := { s.l2 with map := insertA s.l2.map k e' } })
    | none => (none, s)
| CacheLevel.L3_DISK =>
    match lookupA s.l3.map k with
    | some e =>
        match lookupA s.files k with
        | some raw =>
            let e' : CacheEntry :=
              { e with last_access := s.now, access_count := e.access_count + 1 }
            ((if e.compressed then some (Decompress raw) else some raw),
             { s with l3 := { s.l3 with map := insertA s.l3.map k e' } })
        | none => (none, s)
    | none => (none, s)

/-- `FragmentCache::PutToLevel` : build the entry (compressing disk-level
payloads over the threshold), insert it into the level's map and LRU, persist
to the file for the disk level (rolling the insertion back and returning
`false` when the write fails), then bump `total_size` and `entry_count`.
`ioOk` is the outcome of the file-write attempt (always irrelevant for the
in-memory levels). -/
def PutToLevel (s : CacheState) (k : String) (d : Bytes) (lvl : CacheLevel)
    (ioOk : Bool) : Bool × CacheState :=
  let stored := storedBytes s.config lvl d
  let entry : CacheEntry :=
    { data := stored, size := stored.length, last_access := s.now,
      creation_time := s.now, access_count := 1,
      compressed := shouldCompress s.config lvl d, level := lvl, key := k }
  match lvl with
  | CacheLevel.L1_GPU =>
      let s1 := { s with l1 := { map := insertA s.l1.map k entry,
                                 lru := lruAccess s.l1.lru k } }
      (true, { s1 with total_size := s1.total_size + entry.size,
                       entry_count := s1.entry_count + 1 })
  | CacheLevel.L2_RAM =>
      let s1 := { s with l2 := { map := insertA s.l2.map k entry,
                                 lru := lruAccess s.l2.lru k } }
      (true, { s1 with total_size := s1.total_size + entry.size,
                       entry_count := s1.entry_count + 1 })
  | CacheLevel.L3_DISK =>
      let s1 := { s with l3 := { map := insertA s.l3.map k entry,
                                 lru := lruAccess s.l3.lru k } }
      if ioOk then
        let s2 := { s1 with files := insertA s1.files k entry.data }
        (true, { s2 with total_size := s2.total_size + entry.size,
                         entry_count := s2.entry_count + 1 })
      else
        (false, { s1 with l3 := { map := eraseA s1.l3.map k,
                                  lru := s1.l3.lru.erase k } })

/-- The L1 block of `FragmentCache::Remove` : erase the key's L1 map entry
and LRU node if present, subtracting its stored size from `total_size`. -/
def removeL1 (s : CacheState) (k : String) : CacheState × Bool :=
  match lookupA s.l1.map k with
  | some e =>
      ({ s with l1 := { map := eraseA s.l1.map k, lru := s.l1.lru.erase k },
                total_size := s.total_size - e.size }, true)
  | none => (s, false)

/-- The L2 block of `FragmentCache::Remove`. -/
def removeL2 (s : CacheState) (k : String) : CacheState × Bool :=
  match lookupA s.l2.map k with
  | some e =>
      ({ s with l2 := { map := eraseA s.l2.map k, lru := s.l2.lru.erase k },
                total_size := s.total_size - e.size }, true)
  | none => (s, false)

/-- The L3 block of `FragmentCache::Remove` (also deletes the backing
file). -/
def removeL3 (s : CacheState) (k : String) : CacheState × Bool :=
  match lookupA s.l3.map k with
  | some e =>
      ({ s with l3 := { map := eraseA s.l3.map k, lru := s.l3.lru.erase k },
                files := eraseA s.files k,
                total_size := s.total_size - e.size }, true)
  | none => (s, false)

/-- `FragmentCache::Remove` : delete the key from every level it is resident
in, then decrement `entry_count` once if any copy was removed. -/
def Remove (s : CacheState) (k : String) : Bool × CacheState :=
  let p1 := removeL1 s k
  let p2 := removeL2 p1.1 k
  let p3 := removeL3 p2.1 k
  let removed := p1.2 || p2.2 || p3.2
  (removed,
   if removed then { p3.1 with entry_count := p3.1.entry_count - 1 } else p3.1)

/-- `FragmentCache::EvictLRU` : remove the level's least-recently-used key
(a no-op when the LRU index is empty) and count one eviction. -/
def EvictLRU (s : CacheState) (lvl : CacheLevel) : CacheState :=
  match getLRUkey (getTier s lvl).lru with
  | some k =>
      let s' := (Remove s k).2
      { s' with evictions := s'.evictions + 1 }
  | none => s

/-- The `while (NeedEviction(target)) EvictLRU(target)` loop of
`FragmentCache::Put`, with explicit fuel.  When `NeedEviction` holds but the
LRU index is empty the C++ loop never terminates; the model stops there
(under well-formedness that branch is reachable only with a zero cap). -/
def evictLoop : Nat → CacheState → CacheLevel → CacheState
| 0, s, _ => s
| Nat.succ n, s, lvl =>
    if NeedEviction s lvl then
      match getLRUkey (getTier s lvl).lru with
      | some _ => evictLoop n (EvictLRU s lvl) lvl
      | none => s
    else s

/-- The target-level selection of `FragmentCache::Put` : demote L1 → L2 and
L2 → L3 when adding the payload would exceed the level's cap. -/
def putTarget (s : CacheState) (d : Bytes) (preferred : CacheLevel) : CacheLevel :=
  let t1 := if preferred = CacheLevel.L1_GPU ∧
               tierCap s.config CacheLevel.L1_GPU <
                 GetCurrentSize s CacheLevel.L1_GPU + d.length
            then CacheLevel.L2_RAM else preferred
  if t1 = CacheLevel.L2_RAM ∧
       tierCap s.config CacheLevel.L2_RAM <
         GetCurrentSize s CacheLevel.L2_RAM + d.length
  then CacheLevel.L3_DISK else t1

/-- `FragmentCache::Put` : pick the target level (with demotion), evict LRU
entries while the target signals `NeedEviction`, then write to the target. -/
def Put (s : CacheState) (k : String) (d : Bytes) (preferred : CacheLevel)
    (ioOk : Bool) : Bool × CacheState :=
  let target := putTarget s d preferred
  let s1 := evictLoop ((getTier s target).lru.length + 1) s target
  PutToLevel s1 k d target ioOk

/-- The L2-hit promotion step of `FragmentCache::Get` : copy the bytes into
L1 when they fit under its cap (`GetCurrentSize(L1) + size <= max_l1`). -/
def promoteIntoL1 (s : CacheState) (k : String) (d : Bytes) : CacheState :=
  if GetCurrentSize s CacheLevel.L1_GPU + d.length ≤ s.config.max_l1_size
  then (PutToLevel s k d CacheLevel.L1_GPU true).2 else s

/-- The L3-hit promotion step of `FragmentCache::Get` : copy the bytes into
L2 when they fit under its cap. -/
def promoteIntoL2 (s : CacheState) (k : String) (d : Bytes) : CacheState :=
  if GetCurrentSize s CacheLevel.L2_RAM + d.length ≤ s.config.max_l2_size
  then (PutToLevel s k d CacheLevel.L2_RAM true).2 else s

/-- `FragmentCache::Get` : try L1, then L2 (promoting the bytes into L1 when
they fit under its cap), then L3 (promoting into L2 likewise); count one hit
or one miss. -/
def Get (s : CacheState) (k : String) : Bool × Bytes × CacheState :=
  let r1 := GetFromLevel s k CacheLevel.L1_GPU
  match r1.1 with
  | some d =>
      let s1 := r1.2
      (true, d, { s1 with hits := s1.hits + 1,
                          l1 := { s1.l1 with lru := lruAccess s1.l1.lru k } })
  | none =>
    let r2 := GetFromLevel r1.2 k CacheLevel.L2_RAM
    match r2.1 with
    | some d =>
        let s2 := r2.2
        let s3 := { s2 with hits := s2.hits + 1,
                            l2 := { s2.l2 with lru := lruAccess s2.l2.lru k } }
        (true, d, promoteIntoL1 s3 k d)
    | none =>
      let r3 := GetFromLevel r2.2 k CacheLevel.L3_DISK
      match r3.1 with
      | some d =>
          let s3 := r3.2
          let s4 := { s3 with hits := s3.hits + 1,
                              l3 := { s3.l3 with lru := lruAccess s3.l3.lru k } }
          (true, d, promoteIntoL2 s4 k d)
      | none => (false, [], { r3.2 with misses := r3.2.misses + 1 })

/-- State after the L1-hit path of `Get` : entry metadata refreshed, hit
counted, LRU touched. -/
def l1HitState (s : CacheState) (k : String) (e : CacheEntry) : CacheState :=
  let e' : CacheEntry :=
    { e with last_access := s.now, access_count := e.access_count + 1 }
  { s with hits := s.hits + 1,
           l1 := { map := insertA s.l1.map k e', lru := lruAccess s.l1.lru k } }

/-- State after the L2-hit path of `Get`, before the L1 promotion step. -/
def l2HitState (s : CacheState) (k : String) (e : CacheEntry) : CacheState :=
  let e' : CacheEntry :=
    { e with last_access := s.now, access_count := e.access_count + 1 }
  { s with hits := s.hits + 1,
           l2 := { map := insertA s.l2.map k e', lru := lruAccess s.l2.lru k } }

/-- State after the L3-hit path of `Get`, before the L2 promotion step. -/
def l3HitState (s : CacheState) (k : String) (e : CacheEntry) : CacheState :=
  let e' : CacheEntry :=
    { e with last_access := s.now, access_count := e.access_count + 1 }
  { s with hits := s.hits + 1,
           l3 := { map := insertA s.l3.map k e', lru := lruAccess s.l3.lru k } }

/-- `FragmentCache::ResetStats` : zero the hit, miss and eviction counters. -/
def ResetStats (s : CacheState) : CacheState :=
  { s with hits := 0, misses := 0, evictions := 0 }

/-- `CacheStats::GetHitRatio` : `hits / (hits + misses)` (0 with no
accesses); the `double` division is modelled exactly in `ℚ`. -/
def GetHitRate (s : CacheState) : ℚ :=
  if 0 < s.hits + s.misses then (s.hits : ℚ) / ((s.hits : ℚ) + (s.misses : ℚ))
  else 0

/-- `FragmentCache::IsExpired` : the entry's `last_access` age strictly
exceeds `max_age`. -/
def IsExpired (s : CacheState) (e : CacheEntry) : Bool :=
  s.config.max_age < s.now - e.last_access

/-- The keys `FragmentCache::CleanupExpired` collects: expired entries of the
L2 (RAM) map followed by expired entries of the L3 (disk) map. -/
def expiredKeys (s : CacheState) : List String :=
  (s.l2.map.filter (fun p => IsExpired s p.2)).map Prod.fst ++
  (s.l3.map.filter (fun p => IsExpired s p.2)).map Prod.fst

/-- `FragmentCache::CleanupExpired` : one background expiry cycle — collect
the expired L2/L3 keys, then `Remove` each. -/
def CleanupExpired (s : CacheState) : CacheState :=
  (expiredKeys s).foldl (fun st k => (Remove st k).2) s

/-- Run a list of `Get` calls sequentially, counting how many hit and how
many missed. -/
def runGets : CacheState → List String → CacheState × Nat × Nat
| s, [] => (s, 0, 0)
| s, k :: ks =>
    let r := Get s k
    let rest := runGets r.2.2 ks
    (rest.1, (if r.1 then 1 else 0) + rest.2.1, (if r.1 then 0 else 1) + rest.2.2)

/-- Total number of live entries across the three level maps (an entry
resident in two levels counts twice, matching the `total_size` accounting). -/
def liveEntryCount (s : CacheState) : Nat :=
  s.l1.map.length + s.l2.map.length + s.l3.map.length

/-- Map/LRU consistency for one tier, maintained by every code path: the LRU
index tracks exactly the map's keys, without duplicates. -/
def TierWF (t : Tier) : Prop :=
  t.lru.Nodup ∧ (t.map.map Prod.fst).Nodup ∧
  (∀ k ∈ t.lru, (lookupA t.map k).isSome = true) ∧
  (∀ p ∈ t.map, p.1 ∈ t.lru)

instance (t : Tier) : Decidable (TierWF t) := by
  unfold TierWF
  infer_instance

/-- Well-formedness of the whole cache: every tier is map/LRU consistent. -/
def WF (s : CacheState) : Prop :=
  TierWF s.l1 ∧ TierWF s.l2 ∧ TierWF s.l3

instance (s : CacheState) : Decidable (WF s) := by
  unfold WF
  infer_instance

/-! ### Concrete scenario states used by the claim theorems -/

/-- Scenario B configuration: Fast-tier cap 1000 bytes, every other knob at
the header's documented default. -/
def scenBconfig : Config :=
  { max_l1_size := 1000, max_l2_size := 1073741824, max_l3_size := 4294967296,
    compression_threshold := 65536, max_age := 3600,
    enable_compression := true, compression_level := 6 }

/-- A 300-byte payload. -/
def scenBbytes : Bytes := List.replicate 300 7

/-- Scenario B: five sequential 300-byte `Put`s, preferred tier Fast. -/
def scenB5 : CacheState :=
  (Put ((Put ((Put ((Put ((Put (initState scenBconfig)
    "frag1" scenBbytes CacheLevel.L1_GPU true).2)
    "frag2" scenBbytes CacheLevel.L1_GPU true).2)
    "frag3" scenBbytes CacheLevel.L1_GPU true).2)
    "frag4" scenBbytes CacheLevel.L1_GPU true).2)
    "frag5" scenBbytes CacheLevel.L1_GPU true).2

/-- Tiny configuration for the C2 counterexample: every tier cap is 10
bytes, compression threshold 64 bytes. -/
def cexC2config : Config :=
  { max_l1_size := 10, max_l2_size := 10, max_l3_size := 10,
    compression_threshold := 64, max_age := 3600,
    enable_compression := true, compression_level := 6 }

/-- State after a successful 20-byte `Put` into an empty cache whose caps
are all 10 bytes. -/
def cexC2state : CacheState :=
  (Put (initState cexC2config) "frag" (List.replicate 20 1) CacheLevel.L3_DISK true).2

/-- Small configuration shared by several witnesses: 100-byte caps,
compression threshold 4 bytes. -/
def cfg100 : Config :=
  { max_l1_size := 100, max_l2_size := 100, max_l3_size := 100,
    compression_threshold := 4, max_age := 3600,
    enable_compression := true, compression_level := 6 }

/-- State holding one slow-tier entry under key `frag` (its first `Put`
persisted successfully). -/
def cexC4pre : CacheState :=
  (Put (initState cfg100) "frag" [1] CacheLevel.L3_DISK true).2

/-- State holding one Medium-tier entry under key `frag` (two bytes). -/
def w10pre : CacheState :=
  (Put (initState cfg100) "frag" [1, 2] CacheLevel.L2_RAM true).2

/-- Configuration for the C5 witness: 100-byte caps, compression threshold
2 bytes (so the 3-byte payload is stored compressed on disk). -/
def w5config : Config :=
  { max_l1_size := 100, max_l2_size := 100, max_l3_size := 100,
    compression_threshold := 2, max_age := 3600,
    enable_compression := true, compression_level := 6 }

/-- State holding key `frag` only in the Slow tier (stored compressed). -/
def w5state : CacheState :=
  (Put (initState w5config) "frag" [1, 2, 3] CacheLevel.L3_DISK true).2

/-- The compressed slow-tier entry of the C5 witness state. -/
def w5entry : CacheEntry :=
  { data := Compress [1, 2, 3], size := 4, last_access := 0, creation_time := 0,
    access_count := 1, compressed := true, level := CacheLevel.L3_DISK,
    key := "frag" }

/-- State with key `frag` in the Fast tier holding bytes `[1]` (written by
a first `Put` with preferred tier Fast). -/
def cexC1a : CacheState :=
  (Put (initState cfg100) "frag" [1] CacheLevel.L1_GPU true).2

/-- State after overwriting `frag` with bytes `[2]` under preferred tier
Medium: the new entry lands in Medium while the stale Fast copy remains. -/
def cexC1b : CacheState :=
  (Put cexC1a "frag" [2] CacheLevel.L2_RAM true).2

/-- Claim C6 configuration: 1000-byte caps, `max_age` 10 seconds. -/
def c6config : Config :=
  { max_l1_size := 1000, max_l2_size := 1000, max_l3_size := 1000,
    compression_threshold := 64, max_age := 10,
    enable_compression := true, compression_level := 6 }

/-- C6 trace, step 1: `frag` written to the Medium tier at time 0. -/
def c6s1 : CacheState :=
  (Put (initState c6config) "frag" [7] CacheLevel.L2_RAM true).2

/-- C6 trace, step 2: the clock advances to 20 (entry now stale). -/
def c6s2 : CacheState := withNow c6s1 20

/-- C6 trace, step 3: a `Get` hits the Medium tier, refreshes its entry and
promotes a copy of `frag` into the Fast tier. -/
def c6s3 : CacheState := (Get c6s2 "frag").2.2

/-- C6 trace, step 4: the clock advances to 35 (both copies age). -/
def c6s4 : CacheState := withNow c6s3 35

/-- C6 trace, step 5: a `Get` hits the Fast tier, refreshing only the
Fast-tier copy; the Medium entry's `last_access` stays 20, so at time 35 the
Medium copy is expired while the Fast copy is fresh. -/
def c6s5 : CacheState := (Get c6s4 "frag").2.2

/-- A payload one byte larger than the 10 MiB decompression buffer. -/
def w8orig : Bytes := List.replicate (MAX_DECOMPRESSED_SIZE + 1) 7

/-- Slow-tier entry holding the compressed form of `w8orig`. -/
def w8entry : CacheEntry :=
  { data := Compress w8orig, size := (Compress w8orig).length,
    last_access := 0, creation_time := 0, access_count := 1,
    compressed := true, level := CacheLevel.L3_DISK, key := "frag" }

/-- State whose slow tier holds `frag` compressed, with its backing file;
the original payload exceeds the decompression buffer. -/
def w8state : CacheState :=
  { config := cfg100, l1 := ⟨[], []⟩, l2 := ⟨[], []⟩,
    l3 := ⟨[("frag", w8entry)], ["frag"]⟩,
    files := [("frag", Compress w8orig)],
    hits := 0, misses := 0, total_size := (Compress w8orig).length,
    entry_count := 1, evictions := 0, now := 0 }

/-- Base state for the C7 witness: one Medium-tier entry, zero hit/miss
counters. -/
def w7base : CacheState :=
  (Put (initState cfg100) "frag" [1] CacheLevel.L2_RAM true).2

/-- The C7 witness run: one key that hits, one that misses. -/
def w7keys : List String := ["frag", "ghost"]

/-! ### Association-list lemmas -/

@[simp]
theorem lookupA_nil {α : Type} (k : String) : lookupA ([] : List (String × α)) k = none := rfl

theorem lookupA_insertA_self {α : Type} (m : List (String × α)) (k : String) (v : α) :
    lookupA (insertA m k v) k = some v := by
  induction m with
  | nil => simp [insertA, lookupA]
  | cons p rest ih =>
      obtain ⟨a, b⟩ := p
      by_cases h : a = k
      · simp [insertA, lookupA, h]
      · simp [insertA, lookupA, h, ih]

theorem lookupA_insertA_ne {α : Type} (m : List (String × α)) (k k' : String) (v : α)
    (h : k' ≠ k) : lookupA (insertA m k v) k' = lookupA m k' := by
  have hk : k ≠ k' := Ne.symm h
  induction m with
  | nil => simp [insertA, lookupA, hk]
  | cons p rest ih =>
      obtain ⟨a, b⟩ := p
      by_cases hp : a = k
      · subst hp
        simp [insertA, lookupA, hk]
      · simp only [insertA, if_neg hp]
        by_cases hp' : a = k'
        · simp [lookupA, hp']
        · simp [lookupA, hp', ih]

theorem lookupA_eraseA_ne {α : Type} (m : List (String × α)) (k k' : String)
    (h : k' ≠ k) : lookupA (eraseA m k) k' = lookupA m k' := by
  induction m with
  | nil => simp [eraseA]
  | cons p rest ih =>
      obtain ⟨a, b⟩ := p
      by_cases hp : a = k
      · subst hp
        have ha : a ≠ k' := Ne.symm h
        simp [eraseA, lookupA, ha]
      · simp only [eraseA, if_neg hp]
        by_cases hp' : a = k'
        · simp [lookupA, hp']
        · simp [lookupA, hp', ih]

theorem lookupA_none_iff_keys {α : Type} (m : List (String × α)) (k : String) :
    lookupA m k = none ↔ k ∉ m.map Prod.fst := by
  induction m with
  | nil => simp [lookupA]
  | cons p rest ih =>
      obtain ⟨a, b⟩ := p
      by_cases hp : a = k
      · simp [lookupA, hp]
      · have : ¬k = a := fun hh => hp hh.symm
        simp [lookupA, hp, ih, this]

theorem lookupA_isSome_iff_keys {α : Type} (m : List (String × α)) (k : String) :
    (lookupA m k).isSome = true ↔ k ∈ m.map Prod.fst := by
  rw [← Decidable.not_not (p := k ∈ m.map Prod.fst), ← lookupA_none_iff_keys]
  cases lookupA m k <;> simp

theorem eraseA_of_lookupA_none {α : Type} (m : List (String × α)) (k : String)
    (h : lookupA m k = none) : eraseA m k = m := by
  induction m with
  | nil => rfl
  | cons p rest ih =>
      obtain ⟨a, b⟩ := p
      by_cases hp : a = k
      · simp [lookupA, hp] at h
      · simp only [lookupA, if_neg hp] at h
        simp [eraseA, hp, ih h]

theorem lookupA_eraseA_self {α : Type} (m : List (String × α)) (k : String)
    (hnd : (m.map Prod.fst).Nodup) : lookupA (eraseA m k) k = none := by
  induction m with
  | nil => rfl
  | cons p rest ih =>
      obtain ⟨a, b⟩ := p
      simp only [List.map_cons, List.nodup_cons] at hnd
      by_cases hp : a = k
      · rw [eraseA, if_pos hp, (lookupA_none_iff_keys rest k).2]
        rw [← hp]
        exact hnd.1
      · simp [eraseA, lookupA, hp, ih hnd.2]

theorem eraseA_sublist {α : Type} (m : List (String × α)) (k : String) :
    (eraseA m k).Sublist m := by
  induction m with
  | nil => simp [eraseA]
  | cons p rest ih =>
      by_cases hp : p.1 = k
      · rw [eraseA, if_pos hp]
        exact List.sublist_cons_self p rest
      · rw [eraseA, if_neg hp]
        exact ih.cons₂ p

theorem mem_eraseA_of_nodup {α : Type} (m : List (String × α)) (k : String)
    (p : String × α) (hnd : (m.map Prod.fst).Nodup) (hp : p ∈ eraseA m k) :
    p ∈ m ∧ p.1 ≠ k := by
  induction m with
  | nil => simp [eraseA] at hp
  | cons q rest ih =>
      simp only [List.map_cons, List.nodup_cons] at hnd
      by_cases hq : q.1 = k
      · rw [eraseA, if_pos hq] at hp
        refine ⟨List.mem_cons_of_mem q hp, ?_⟩
        intro hk
        apply hnd.1
        rw [hq, ← hk]
        exact List.mem_map_of_mem Prod.fst hp
      · rw [eraseA, if_neg hq] at hp
        rcases List.mem_cons.1 hp with h | h
        · rw [h]
          exact ⟨List.mem_cons_self q rest, hq⟩
        · rcases ih hnd.2 h with ⟨h1, h2⟩
          exact ⟨List.mem_cons_of_mem q h1, h2⟩

theorem keys_insertA_of_isSome {α : Type} (m : List (String × α)) (k : String) (v : α)
    (h : (lookupA m k).isSome = true) :
    (insertA m k v).map Prod.fst = m.map Prod.fst := by
  induction m with
  | nil => simp [lookupA] at h
  | cons p rest ih =>
      obtain ⟨a, b⟩ := p
      by_cases hp : a = k
      · simp [insertA, hp]
      · simp only [lookupA, if_neg hp] at h
        simp [insertA, hp, ih h]

theorem keys_insertA_of_none {α : Type} (m : List (String × α)) (k : String) (v : α)
    (h : lookupA m k = none) :
    (insertA m k v).map Prod.fst = m.map Prod.fst ++ [k] := by
  induction m with
  | nil => simp [insertA]
  | cons p rest ih =>
      obtain ⟨a, b⟩ := p
      by_cases hp : a = k
      · simp [lookupA, hp] at h
      · simp only [lookupA, if_neg hp] at h
        simp [insertA, hp, ih h]

theorem length_insertA_of_isSome {α : Type} (m : List (String × α)) (k : String) (v : α)
    (h : (lookupA m k).isSome = true) : (insertA m k v).length = m.length := by
  have hkeys := keys_insertA_of_isSome m k v h
  have h1 : (insertA m k v).length = ((insertA m k v).map Prod.fst).length :=
    (List.length_map _ _).symm
  rw [h1, hkeys, List.length_map]

theorem length_insertA_of_none {α : Type} (m : List (String × α)) (k : String) (v : α)
    (h : lookupA m k = none) : (insertA m k v).length = m.length + 1 := by
  have hkeys := keys_insertA_of_none m k v h
  have h1 : (insertA m k v).length = ((insertA m k v).map Prod.fst).length :=
    (List.length_map _ _).symm
  rw [h1, hkeys]
  simp

theorem mapBytes_insertA_le (m : List (String × CacheEntry)) (k : String) (e : CacheEntry) :
    mapBytes (insertA m k e) ≤ mapBytes m + e.size := by
  induction m with
  | nil => simp [insertA, mapBytes]
  | cons p rest ih =>
      by_cases hp : p.1 = k
      · rw [insertA, if_pos hp]
        simp only [mapBytes]
        omega
      · rw [insertA, if_neg hp]
        simp only [mapBytes]
        omega

theorem mapBytes_eraseA_le (m : List (String × CacheEntry)) (k : String) :
    mapBytes (eraseA m k) ≤ mapBytes m := by
  induction m with
  | nil => simp [eraseA]
  | cons p rest ih =>
      by_cases hp : p.1 = k
      · rw [eraseA, if_pos hp]
        simp only [mapBytes]
        omega
      · rw [eraseA, if_neg hp]
        simp only [mapBytes]
        omega

/-! ### LRU-index lemmas -/

theorem getLRUkey_eq_none {l : List String} (h : getLRUkey l = none) : l = [] :=
  List.getLast?_eq_none_iff.1 h

theorem getLRUkey_mem {l : List String} {k : String} (h : getLRUkey l = some k) :
    k ∈ l := by
  have hm : k ∈ l.getLast? := by
    rw [getLRUkey] at h
    simp [h, Option.mem_def]
  rcases List.mem_getLast?_eq_getLast hm with ⟨hne, hk⟩
  rw [hk]
  exact List.getLast_mem hne

/-! ### Codec lemmas -/

theorem Decompress_Compress_eq (d : Bytes) (h : d.length ≤ MAX_DECOMPRESSED_SIZE) :
    Decompress (Compress d) = d := by
  simp [Compress, Decompress, h]

theorem Decompress_Compress_big (d : Bytes) (h : MAX_DECOMPRESSED_SIZE < d.length) :
    Decompress (Compress d) = Compress d := by
  simp [Compress, Decompress, Nat.not_le.2 h]

theorem Compress_ne (d : Bytes) : Compress d ≠ d := by
  intro h
  have hlen := congrArg List.length h
  simp [Compress] at hlen

/-! ### GetFromLevel lemmas -/

theorem GetFromLevel_L1_miss (s : CacheState) (k : String)
    (h : lookupA s.l1.map k = none) :
    GetFromLevel s k CacheLevel.L1_GPU = (none, s) := by
  simp [GetFromLevel, h]

theorem GetFromLevel_L2_miss (s : CacheState) (k : String)
    (h : lookupA s.l2.map k = none) :
    GetFromLevel s k CacheLevel.L2_RAM = (none, s) := by
  simp [GetFromLevel, h]

theorem GetFromLevel_L3_miss (s : CacheState) (k : String)
    (h : lookupA s.l3.map k = none) :
    GetFromLevel s k CacheLevel.L3_DISK = (none, s) := by
  simp [GetFromLevel, h]

theorem GetFromLevel_L2_hit (s : CacheState) (k : String) (e : CacheEntry)
    (h : lookupA s.l2.map k = some e) :
    GetFromLevel s k CacheLevel.L2_RAM =
      (some e.data,
       { s with l2 := { s.l2 with map := insertA s.l2.map k ({
           data := e.data, size := e.size, last_access := s.now,
           creation_time := e.creation_time, access_count := e.access_count + 1,
           compressed := e.compressed, level := e.level, key := e.key }) } }) := by
  simp [GetFromLevel, h]

theorem GetFromLevel_L3_hit (s : CacheState) (k : String) (e : CacheEntry) (raw : Bytes)
    (h : lookupA s.l3.map k = some e) (hf : lookupA s.files k = some raw) :
    GetFromLevel s k CacheLevel.L3_DISK =
      ((if e.compressed then some (Decompress raw) else some raw),
       { s with l3 := { s.l3 with map := insertA s.l3.map k ({
           data := e.data, size := e.size, last_access := s.now,
           creation_time := e.creation_time, access_count := e.access_count + 1,
           compressed := e.compressed, level := e.level, key := e.key }) } }) := by
  simp [GetFromLevel, h, hf]

theorem GetFromLevel_hits (s : CacheState) (k : String) (lvl : CacheLevel) :
    ((GetFromLevel s k lvl).2).hits = s.hits := by
  cases lvl with
  | L1_GPU =>
      unfold GetFromLevel
      cases lookupA s.l1.map k <;> rfl
  | L2_RAM =>
      unfold GetFromLevel
      cases lookupA s.l2.map k <;> rfl
  | L3_DISK =>
      unfold GetFromLevel
      cases lookupA s.l3.map k with
      | none => rfl
      | some e => cases lookupA s.files k <;> rfl

theorem GetFromLevel_misses (s : CacheState) (k : String) (lvl : CacheLevel) :
    ((GetFromLevel s k lvl).2).misses = s.misses := by
  cases lvl with
  | L1_GPU =>
      unfold GetFromLevel
      cases lookupA s.l1.map k <;> rfl
  | L2_RAM =>
      unfold GetFromLevel
      cases lookupA s.l2.map k <;> rfl
  | L3_DISK =>
      unfold GetFromLevel
      cases lookupA s.l3.map k with
      | none => rfl
      | some e => cases lookupA s.files k <;> rfl

theorem GetFromLevel_L1_hit (s : CacheState) (k : String) (e : CacheEntry)
    (h : lookupA s.l1.map k = some e) :
    GetFromLevel s k CacheLevel.L1_GPU =
      (some e.data,
       { s with l1 := { s.l1 with map := insertA s.l1.map k ({
           data := e.data, size := e.size, last_access := s.now,
           creation_time := e.creation_time, access_count := e.access_count + 1,
           compressed := e.compressed, level := e.level, key := e.key }) } }) := by
  simp [GetFromLevel, h]

/-! ### Evaluation of Get along each hit path -/

theorem Get_eq_L1path (s : CacheState) (k : String) (e : CacheEntry)
    (h1 : lookupA s.l1.map k = some e) :
    Get s k = (true, e.data, l1HitState s k e) := by
  simp only [Get, GetFromLevel_L1_hit s k e h1]
  rfl

theorem Get_eq_L2path (s : CacheState) (k : String) (e : CacheEntry)
    (h1 : lookupA s.l1.map k = none) (h2 : lookupA s.l2.map k = some e) :
    Get s k = (true, e.data, promoteIntoL1 (l2HitState s k e) k e.data) := by
  simp only [Get, GetFromLevel_L1_miss s k h1, GetFromLevel_L2_hit s k e h2]
  rfl

theorem Get_eq_L3path (s : CacheState) (k : String) (e : CacheEntry) (raw : Bytes)
    (h1 : lookupA s.l1.map k = none) (h2 : lookupA s.l2.map k = none)
    (h3 : lookupA s.l3.map k = some e) (hf : lookupA s.files k = some raw) :
    Get s k = (true, (if e.compressed then Decompress raw else raw),
      promoteIntoL2 (l3HitState s k e) k
        (if e.compressed then Decompress raw else raw)) := by
  simp only [Get, GetFromLevel_L1_miss s k h1, GetFromLevel_L2_miss s k h2,
    GetFromLevel_L3_hit s k e raw h3 hf]
  rcases Bool.dichotomy e.compressed with hc | hc
  · have hc' : ¬ e.compressed = true := by
      rw [hc]
      exact Bool.false_ne_true
    rw [if_neg hc', if_neg hc']
    rfl
  · rw [if_pos hc, if_pos hc]
    rfl

/-! ### PutToLevel lemmas -/

theorem storedBytes_L1 (cfg : Config) (d : Bytes) :
    storedBytes cfg CacheLevel.L1_GPU d = d := by
  simp [storedBytes, shouldCompress]

theorem storedBytes_L2 (cfg : Config) (d : Bytes) :
    storedBytes cfg CacheLevel.L2_RAM d = d := by
  simp [storedBytes, shouldCompress]

theorem promoteIntoL2_l3 (s : CacheState) (k : String) (d : Bytes) :
    (promoteIntoL2 s k d).l3 = s.l3 := by
  unfold promoteIntoL2
  split
  · rfl
  · rfl

theorem PutToLevel_hits (s : CacheState) (k : String) (d : Bytes) (lvl : CacheLevel)
    (io : Bool) : ((PutToLevel s k d lvl io).2).hits = s.hits := by
  cases lvl <;> cases io <;> rfl

theorem PutToLevel_misses (s : CacheState) (k : String) (d : Bytes) (lvl : CacheLevel)
    (io : Bool) : ((PutToLevel s k d lvl io).2).misses = s.misses := by
  cases lvl <;> cases io <;> rfl

theorem PutToLevel_config (s : CacheState) (k : String) (d : Bytes) (lvl : CacheLevel)
    (io : Bool) : ((PutToLevel s k d lvl io).2).config = s.config := by
  cases lvl <;> cases io <;> rfl

/-! ### Remove decomposition lemmas -/

theorem removeL1_l2 (s : CacheState) (k : String) : ((removeL1 s k).1).l2 = s.l2 := by
  unfold removeL1
  cases lookupA s.l1.map k <;> rfl

theorem removeL1_l3 (s : CacheState) (k : String) : ((removeL1 s k).1).l3 = s.l3 := by
  unfold removeL1
  cases lookupA s.l1.map k <;> rfl

theorem removeL1_files (s : CacheState) (k : String) : ((removeL1 s k).1).files = s.files := by
  unfold removeL1
  cases lookupA s.l1.map k <;> rfl

theorem removeL1_config (s : CacheState) (k : String) : ((removeL1 s k).1).config = s.config := by
  unfold removeL1
  cases lookupA s.l1.map k <;> rfl

theorem removeL1_l1 (s : CacheState) (k : String) :
    ((removeL1 s k).1).l1 = (if (lookupA s.l1.map k).isSome then
      Tier.mk (eraseA s.l1.map k) (s.l1.lru.erase k) else s.l1) := by
  unfold removeL1
  cases lookupA s.l1.map k <;> rfl

theorem removeL2_l1 (s : CacheState) (k : String) : ((removeL2 s k).1).l1 = s.l1 := by
  unfold removeL2
  cases lookupA s.l2.map k <;> rfl

theorem removeL2_l3 (s : CacheState) (k : String) : ((removeL2 s k).1).l3 = s.l3 := by
  unfold removeL2
  cases lookupA s.l2.map k <;> rfl

theorem removeL2_files (s : CacheState) (k : String) : ((removeL2 s k).1).files = s.files := by
  unfold removeL2
  cases lookupA s.l2.map k <;> rfl

theorem removeL2_config (s : CacheState) (k : String) : ((removeL2 s k).1).config = s.config := by
  unfold removeL2
  cases lookupA s.l2.map k <;> rfl

theorem removeL2_l2 (s : CacheState) (k : String) :
    ((removeL2 s k).1).l2 = (if (lookupA s.l2.map k).isSome then
      Tier.mk (eraseA s.l2.map k) (s.l2.lru.erase k) else s.l2) := by
  unfold removeL2
  cases lookupA s.l2.map k <;> rfl

theorem removeL3_l1 (s : CacheState) (k : String) : ((removeL3 s k).1).l1 = s.l1 := by
  unfold removeL3
  cases lookupA s.l3.map k <;> rfl

theorem removeL3_l2 (s : CacheState) (k : String) : ((removeL3 s k).1).l2 = s.l2 := by
  unfold removeL3
  cases lookupA s.l3.map k <;> rfl

theorem removeL3_config (s : CacheState) (k : String) : ((removeL3 s k).1).config = s.config := by
  unfold removeL3
  cases lookupA s.l3.map k <;> rfl

theorem removeL3_l3 (s : CacheState) (k : String) :
    ((removeL3 s k).1).l3 = (if (lookupA s.l3.map k).isSome then
      Tier.mk (eraseA s.l3.map k) (s.l3.lru.erase k) else s.l3) := by
  unfold removeL3
  cases lookupA s.l3.map k <;> rfl

theorem removeL1_hits (s : CacheState) (k : String) : ((removeL1 s k).1).hits = s.hits := by
  unfold removeL1
  cases lookupA s.l1.map k <;> rfl

theorem removeL2_hits (s : CacheState) (k : String) : ((removeL2 s k).1).hits = s.hits := by
  unfold removeL2
  cases lookupA s.l2.map k <;> rfl

theorem removeL3_hits (s : CacheState) (k : String) : ((removeL3 s k).1).hits = s.hits := by
  unfold removeL3
  cases lookupA s.l3.map k <;> rfl

theorem removeL1_misses (s : CacheState) (k : String) : ((removeL1 s k).1).misses = s.misses := by
  unfold removeL1
  cases lookupA s.l1.map k <;> rfl

theorem removeL2_misses (s : CacheState) (k : String) : ((removeL2 s k).1).misses = s.misses := by
  unfold removeL2
  cases lookupA s.l2.map k <;> rfl

theorem removeL3_misses (s : CacheState) (k : String) : ((removeL3 s k).1).misses = s.misses := by
  unfold removeL3
  cases lookupA s.l3.map k <;> rfl

theorem Remove_l1_eq (s : CacheState) (k : String) :
    ((Remove s k).2).l1 = (if (lookupA s.l1.map k).isSome then
      Tier.mk (eraseA s.l1.map k) (s.l1.lru.erase k) else s.l1) := by
  unfold Remove
  dsimp only
  split <;> simp only [removeL3_l1, removeL2_l1, removeL1_l1]

theorem Remove_l2_eq (s : CacheState) (k : String) :
    ((Remove s k).2).l2 = (if (lookupA s.l2.map k).isSome then
      Tier.mk (eraseA s.l2.map k) (s.l2.lru.erase k) else s.l2) := by
  unfold Remove
  dsimp only
  split <;> simp only [removeL3_l2, removeL2_l2, removeL1_l2]

theorem Remove_l3_eq (s : CacheState) (k : String) :
    ((Remove s k).2).l3 = (if (lookupA ((removeL2 (removeL1 s k).1 k).1).l3.map k).isSome then
      Tier.mk (eraseA s.l3.map k) (s.l3.lru.erase k) else s.l3) := by
  unfold Remove
  dsimp only
  split <;> simp only [removeL3_l3, removeL2_l3, removeL1_l3]

theorem Remove_l3_eq' (s : CacheState) (k : String) :
    ((Remove s k).2).l3 = (if (lookupA s.l3.map k).isSome then
      Tier.mk (eraseA s.l3.map k) (s.l3.lru.erase k) else s.l3) := by
  rw [Remove_l3_eq, removeL2_l3, removeL1_l3]

theorem Remove_config (s : CacheState) (k : String) :
    ((Remove s k).2).config = s.config := by
  unfold Remove
  dsimp only
  split <;> simp only [removeL3_config, removeL2_config, removeL1_config]

theorem Remove_hits (s : CacheState) (k : String) :
    ((Remove s k).2).hits = s.hits := by
  unfold Remove
  dsimp only
  split <;> simp only [removeL3_hits, removeL2_hits, removeL1_hits]

theorem Remove_misses (s : CacheState) (k : String) :
    ((Remove s k).2).misses = s.misses := by
  unfold Remove
  dsimp only
  split <;> simp only [removeL3_misses, removeL2_misses, removeL1_misses]

/-! ### Well-formedness preservation -/

theorem TierWF_erase (t : Tier) (k : String) (h : TierWF t) :
    TierWF (Tier.mk (eraseA t.map k) (t.lru.erase k)) := by
  obtain ⟨hnd, hmnd, hforward, hback⟩ := h
  refine ⟨hnd.erase k, ?_, ?_, ?_⟩
  · exact ((eraseA_sublist t.map k).map Prod.fst).nodup hmnd
  · intro k' hk'
    rcases (hnd.mem_erase_iff.1 hk') with ⟨hne, hmem⟩
    rw [lookupA_eraseA_ne t.map k k' hne]
    exact hforward k' hmem
  · intro p hp
    rcases mem_eraseA_of_nodup t.map k p hmnd hp with ⟨hmem, hne⟩
    exact hnd.mem_erase_iff.2 ⟨hne, hback p hmem⟩

theorem TierWF_if_erase (t : Tier) (k : String) (c : Bool) (h : TierWF t) :
    TierWF (if c then Tier.mk (eraseA t.map k) (t.lru.erase k) else t) := by
  cases c with
  | false => simpa using h
  | true => simpa using TierWF_erase t k h

theorem Remove_WF (s : CacheState) (k : String) (h : WF s) : WF ((Remove s k).2) := by
  obtain ⟨h1, h2, h3⟩ := h
  refine ⟨?_, ?_, ?_⟩
  · rw [Remove_l1_eq]
    exact TierWF_if_erase s.l1 k _ h1
  · rw [Remove_l2_eq]
    exact TierWF_if_erase s.l2 k _ h2
  · rw [Remove_l3_eq']
    exact TierWF_if_erase s.l3 k _ h3

/-! ### Absence and preservation under Remove -/

theorem lookupA_eraseA_of_none {α : Type} (m : List (String × α)) (k k' : String)
    (h : lookupA m k' = none) : lookupA (eraseA m k) k' = none := by
  rw [lookupA_none_iff_keys] at h ⊢
  intro hmem
  exact h (((eraseA_sublist m k).map Prod.fst).mem hmem)

theorem Remove_lookup_l1_none (s : CacheState) (k k' : String)
    (h : lookupA s.l1.map k' = none) : lookupA ((Remove s k).2).l1.map k' = none := by
  rw [Remove_l1_eq]
  split
  · exact lookupA_eraseA_of_none s.l1.map k k' h
  · exact h

theorem Remove_lookup_l2_none (s : CacheState) (k k' : String)
    (h : lookupA s.l2.map k' = none) : lookupA ((Remove s k).2).l2.map k' = none := by
  rw [Remove_l2_eq]
  split
  · exact lookupA_eraseA_of_none s.l2.map k k' h
  · exact h

theorem Remove_lookup_l3_none (s : CacheState) (k k' : String)
    (h : lookupA s.l3.map k' = none) : lookupA ((Remove s k).2).l3.map k' = none := by
  rw [Remove_l3_eq']
  split
  · exact lookupA_eraseA_of_none s.l3.map k k' h
  · exact h

theorem Remove_lookup_l1_ne (s : CacheState) (k k' : String) (h : k' ≠ k) :
    lookupA ((Remove s k).2).l1.map k' = lookupA s.l1.map k' := by
  rw [Remove_l1_eq]
  split
  · exact lookupA_eraseA_ne s.l1.map k k' h
  · rfl

theorem Remove_lookup_l2_ne (s : CacheState) (k k' : String) (h : k' ≠ k) :
    lookupA ((Remove s k).2).l2.map k' = lookupA s.l2.map k' := by
  rw [Remove_l2_eq]
  split
  · exact lookupA_eraseA_ne s.l2.map k k' h
  · rfl

theorem Remove_lookup_l3_ne (s : CacheState) (k k' : String) (h : k' ≠ k) :
    lookupA ((Remove s k).2).l3.map k' = lookupA s.l3.map k' := by
  rw [Remove_l3_eq']
  split
  · exact lookupA_eraseA_ne s.l3.map k k' h
  · rfl

theorem Remove_absent (s : CacheState) (k : String) (hwf : WF s) :
    lookupA ((Remove s k).2).l1.map k = none ∧
    lookupA ((Remove s k).2).l2.map k = none ∧
    lookupA ((Remove s k).2).l3.map k = none ∧
    k ∉ ((Remove s k).2).l1.lru ∧
    k ∉ ((Remove s k).2).l2.lru ∧
    k ∉ ((Remove s k).2).l3.lru := by
  obtain ⟨⟨hn1, hm1, hf1, hb1⟩, ⟨hn2, hm2, hf2, hb2⟩, ⟨hn3, hm3, hf3, hb3⟩⟩ := hwf
  refine ⟨?_, ?_, ?_, ?_, ?_, ?_⟩
  · rw [Remove_l1_eq]
    cases hl : (lookupA s.l1.map k).isSome with
    | true => simpa [hl] using lookupA_eraseA_self s.l1.map k hm1
    | false =>
        simp only [hl, if_neg Bool.false_ne_true]
        exact Option.not_isSome_iff_eq_none.1 (by simp [hl])
  · rw [Remove_l2_eq]
    cases hl : (lookupA s.l2.map k).isSome with
    | true => simpa [hl] using lookupA_eraseA_self s.l2.map k hm2
    | false =>
        simp only [hl, if_neg Bool.false_ne_true]
        exact Option.not_isSome_iff_eq_none.1 (by simp [hl])
  · rw [Remove_l3_eq']
    cases hl : (lookupA s.l3.map k).isSome with
    | true => simpa [hl] using lookupA_eraseA_self s.l3.map k hm3
    | false =>
        simp only [hl, if_neg Bool.false_ne_true]
        exact Option.not_isSome_iff_eq_none.1 (by simp [hl])
  · rw [Remove_l1_eq]
    cases hl : (lookupA s.l1.map k).isSome with
    | true =>
        simp only [hl, if_pos rfl]
        intro hmem
        exact (hn1.mem_erase_iff.1 hmem).1 rfl
    | false =>
        simp only [hl, if_neg Bool.false_ne_true]
        intro hmem
        have := hf1 k hmem
        rw [hl] at this
        exact Bool.false_ne_true this
  · rw [Remove_l2_eq]
    cases hl : (lookupA s.l2.map k).isSome with
    | true =>
        simp only [hl, if_pos rfl]
        intro hmem
        exact (hn2.mem_erase_iff.1 hmem).1 rfl
    | false =>
        simp only [hl, if_neg Bool.false_ne_true]
        intro hmem
        have := hf2 k hmem
        rw [hl] at this
        exact Bool.false_ne_true this
  · rw [Remove_l3_eq']
    cases hl : (lookupA s.l3.map k).isSome with
    | true =>
        simp only [hl, if_pos rfl]
        intro hmem
        exact (hn3.mem_erase_iff.1 hmem).1 rfl
    | false =>
        simp only [hl, if_neg Bool.false_ne_true]
        intro hmem
        have := hf3 k hmem
        rw [hl] at this
        exact Bool.false_ne_true this

theorem Remove_notmem_l1 (s : CacheState) (k k' : String)
    (h : k' ∉ s.l1.lru) : k' ∉ ((Remove s k).2).l1.lru := by
  rw [Remove_l1_eq]
  split
  · exact fun hmem => h (List.mem_of_mem_erase hmem)
  · exact h

theorem Remove_notmem_l2 (s : CacheState) (k k' : String)
    (h : k' ∉ s.l2.lru) : k' ∉ ((Remove s k).2).l2.lru := by
  rw [Remove_l2_eq]
  split
  · exact fun hmem => h (List.mem_of_mem_erase hmem)
  · exact h

theorem Remove_notmem_l3 (s : CacheState) (k k' : String)
    (h : k' ∉ s.l3.lru) : k' ∉ ((Remove s k).2).l3.lru := by
  rw [Remove_l3_eq']
  split
  · exact fun hmem => h (List.mem_of_mem_erase hmem)
  · exact h

/-! ### EvictLRU and eviction-loop lemmas -/

theorem WF_tier (s : CacheState) (lvl : CacheLevel) (h : WF s) : TierWF (getTier s lvl) := by
  cases lvl with
  | L1_GPU => exact h.1
  | L2_RAM => exact h.2.1
  | L3_DISK => exact h.2.2

theorem EvictLRU_config (s : CacheState) (lvl : CacheLevel) :
    (EvictLRU s lvl).config = s.config := by
  unfold EvictLRU
  cases getLRUkey (getTier s lvl).lru with
  | none => rfl
  | some k => simp [Remove_config]

theorem EvictLRU_WF (s : CacheState) (lvl : CacheLevel) (h : WF s) : WF (EvictLRU s lvl) := by
  unfold EvictLRU
  cases getLRUkey (getTier s lvl).lru with
  | none => exact h
  | some k => exact Remove_WF s k h

theorem EvictLRU_tier (s : CacheState) (lvl : CacheLevel) (k : String)
    (hk : getLRUkey (getTier s lvl).lru = some k)
    (hsome : (lookupA (getTier s lvl).map k).isSome = true) :
    getTier (EvictLRU s lvl) lvl =
      Tier.mk (eraseA (getTier s lvl).map k) ((getTier s lvl).lru.erase k) := by
  unfold EvictLRU
  rw [hk]
  cases lvl with
  | L1_GPU =>
      show ((Remove s k).2).l1 = _
      rw [Remove_l1_eq]
      simp only [getTier] at hsome
      rw [if_pos hsome]
      rfl
  | L2_RAM =>
      show ((Remove s k).2).l2 = _
      rw [Remove_l2_eq]
      simp only [getTier] at hsome
      rw [if_pos hsome]
      rfl
  | L3_DISK =>
      show ((Remove s k).2).l3 = _
      rw [Remove_l3_eq']
      simp only [getTier] at hsome
      rw [if_pos hsome]
      rfl

theorem evictLoop_config (n : Nat) (s : CacheState) (lvl : CacheLevel) :
    (evictLoop n s lvl).config = s.config := by
  induction n generalizing s with
  | zero => rfl
  | succ n ih =>
      by_cases hneed : NeedEviction s lvl
      · cases hk : getLRUkey (getTier s lvl).lru with
        | none => simp [evictLoop, hneed, hk]
        | some k =>
            simp only [evictLoop, if_pos hneed, hk]
            rw [ih (EvictLRU s lvl), EvictLRU_config]
      · simp [evictLoop, hneed]

theorem evictLoop_WF (n : Nat) (s : CacheState) (lvl : CacheLevel) (h : WF s) :
    WF (evictLoop n s lvl) := by
  induction n generalizing s with
  | zero => exact h
  | succ n ih =>
      by_cases hneed : NeedEviction s lvl
      · cases hk : getLRUkey (getTier s lvl).lru with
        | none => simpa [evictLoop, hneed, hk] using h
        | some k =>
            simp only [evictLoop, if_pos hneed, hk]
            exact ih (EvictLRU s lvl) (EvictLRU_WF s lvl h)
      · simpa [evictLoop, hneed] using h

theorem evictLoop_not_need (n : Nat) (s : CacheState) (lvl : CacheLevel)
    (hwf : WF s) (hcap : 0 < tierCap s.config lvl)
    (hfuel : (getTier s lvl).lru.length < n) :
    ¬ NeedEviction (evictLoop n s lvl) lvl := by
  induction n generalizing s with
  | zero => omega
  | succ n ih =>
      by_cases hneed : NeedEviction s lvl
      · cases hk : getLRUkey (getTier s lvl).lru with
        | none =>
            exfalso
            have hlru := getLRUkey_eq_none hk
            have hmap : (getTier s lvl).map = [] := by
              cases hm : (getTier s lvl).map with
              | nil => rfl
              | cons p rest =>
                  exfalso
                  have hmem : p ∈ (getTier s lvl).map := by
                    rw [hm]
                    exact List.mem_cons_self p rest
                  have := (WF_tier s lvl hwf).2.2.2 p hmem
                  rw [hlru] at this
                  exact absurd this (List.not_mem_nil p.1)
            have hsize : GetCurrentSize s lvl = 0 := by
              unfold GetCurrentSize
              rw [hmap]
              rfl
            unfold NeedEviction at hneed
            rw [hsize] at hneed
            omega
        | some k =>
            simp only [evictLoop, if_pos hneed, hk]
            have hkmem := getLRUkey_mem hk
            have hsome := (WF_tier s lvl hwf).2.2.1 k hkmem
            have htier := EvictLRU_tier s lvl k hk hsome
            apply ih (EvictLRU s lvl) (EvictLRU_WF s lvl hwf)
            · rw [EvictLRU_config]
              exact hcap
            · rw [htier]
              show ((getTier s lvl).lru.erase k).length < n
              rw [List.length_erase_of_mem hkmem]
              have hpos := List.length_pos_of_mem hkmem
              omega
      · simp [evictLoop, hneed]

theorem evictLoop_lookup_l1_none (n : Nat) (s : CacheState) (lvl : CacheLevel) (k : String)
    (h : lookupA s.l1.map k = none) : lookupA (evictLoop n s lvl).l1.map k = none := by
  induction n generalizing s with
  | zero => exact h
  | succ n ih =>
      by_cases hneed : NeedEviction s lvl
      · cases hk : getLRUkey (getTier s lvl).lru with
        | none => simpa [evictLoop, hneed, hk] using h
        | some k' =>
            simp only [evictLoop, if_pos hneed, hk]
            apply ih
            unfold EvictLRU
            rw [hk]
            exact Remove_lookup_l1_none s k' k h
      · simpa [evictLoop, hneed] using h

theorem evictLoop_lookup_l2_none (n : Nat) (s : CacheState) (lvl : CacheLevel) (k : String)
    (h : lookupA s.l2.map k = none) : lookupA (evictLoop n s lvl).l2.map k = none := by
  induction n generalizing s with
  | zero => exact h
  | succ n ih =>
      by_cases hneed : NeedEviction s lvl
      · cases hk : getLRUkey (getTier s lvl).lru with
        | none => simpa [evictLoop, hneed, hk] using h
        | some k' =>
            simp only [evictLoop, if_pos hneed, hk]
            apply ih
            unfold EvictLRU
            rw [hk]
            exact Remove_lookup_l2_none s k' k h
      · simpa [evictLoop, hneed] using h

theorem evictLoop_lookup_l3_none (n : Nat) (s : CacheState) (lvl : CacheLevel) (k : String)
    (h : lookupA s.l3.map k = none) : lookupA (evictLoop n s lvl).l3.map k = none := by
  induction n generalizing s with
  | zero => exact h
  | succ n ih =>
      by_cases hneed : NeedEviction s lvl
      · cases hk : getLRUkey (getTier s lvl).lru with
        | none => simpa [evictLoop, hneed, hk] using h
        | some k' =>
            simp only [evictLoop, if_pos hneed, hk]
            apply ih
            unfold EvictLRU
            rw [hk]
            exact Remove_lookup_l3_none s k' k h
      · simpa [evictLoop, hneed] using h

theorem GetCurrentSize_PutToLevel_le (s : CacheState) (k : String) (d : Bytes)
    (lvl : CacheLevel) (io : Bool) :
    GetCurrentSize (PutToLevel s k d lvl io).2 lvl ≤
      GetCurrentSize s lvl + (storedBytes s.config lvl d).length := by
  cases lvl with
  | L1_GPU =>
      show mapBytes (insertA s.l1.map k _) ≤ _
      exact mapBytes_insertA_le s.l1.map k _
  | L2_RAM =>
      show mapBytes (insertA s.l2.map k _) ≤ _
      exact mapBytes_insertA_le s.l2.map k _
  | L3_DISK =>
      cases io with
      | true =>
          show mapBytes (insertA s.l3.map k _) ≤ _
          exact mapBytes_insertA_le s.l3.map k _
      | false =>
          show mapBytes (eraseA (insertA s.l3.map k _) k) ≤ _
          exact le_trans (mapBytes_eraseA_le _ k) (mapBytes_insertA_le s.l3.map k _)

theorem eraseA_insertA_of_none {α : Type} (m : List (String × α)) (k : String) (v : α)
    (h : lookupA m k = none) : eraseA (insertA m k v) k = m := by
  induction m with
  | nil => simp [insertA, eraseA]
  | cons p rest ih =>
      obtain ⟨a, b⟩ := p
      by_cases hp : a = k
      · simp [lookupA, hp] at h
      · simp only [lookupA, if_neg hp] at h
        simp [insertA, eraseA, hp, ih h]

/-! ## Claims -/

/-- Claim C9: `ResetStats` zeroes the hit, miss and eviction counters and
changes nothing else — `total_size`, `entry_count`, the three tiers, the
disk files, the clock and the configuration are untouched. Confirmed. -/
theorem C9_resetstats_frame (s : CacheState) :
    (ResetStats s).hits = 0 ∧ (ResetStats s).misses = 0 ∧
    (ResetStats s).evictions = 0 ∧
    (ResetStats s).total_size = s.total_size ∧
    (ResetStats s).entry_count = s.entry_count ∧
    (ResetStats s).l1 = s.l1 ∧ (ResetStats s).l2 = s.l2 ∧
    (ResetStats s).l3 = s.l3 ∧ (ResetStats s).files = s.files ∧
    (ResetStats s).now = s.now ∧ (ResetStats s).config = s.config :=
  ⟨rfl, rfl, rfl, rfl, rfl, rfl, rfl, rfl, rfl, rfl, rfl⟩

/-- Claim C3, counterexample: with Fast cap 1000 and five 300-byte `Put`s,
the Fast tier ends with three resident entries and zero recorded evictions —
not the two entries and three evictions the claim asserts. The fourth and
fifth `Put`s are demoted to the Medium tier (`Put` cascades the target level
on overflow instead of evicting the preferred tier). -/
theorem C3_counterexample :
    GetEntryCount scenB5 CacheLevel.L1_GPU = 3 ∧ scenB5.evictions = 0 := by
  decide

/-- Claim C3 (corrected): five sequential 300-byte `Put`s under Fast cap
1000 leave the three first-inserted entries resident in Fast (900 bytes),
demote the last two to the Medium tier, and record zero evictions. -/
theorem C3_scenarioB_amended :
    GetEntryCount scenB5 CacheLevel.L1_GPU = 3 ∧
    GetEntryCount scenB5 CacheLevel.L2_RAM = 2 ∧
    GetCurrentSize scenB5 CacheLevel.L1_GPU = 900 ∧
    scenB5.evictions = 0 ∧
    (lookupA scenB5.l1.map "frag1").isSome = true ∧
    (lookupA scenB5.l1.map "frag2").isSome = true ∧
    (lookupA scenB5.l1.map "frag3").isSome = true ∧
    (lookupA scenB5.l2.map "frag4").isSome = true ∧
    (lookupA scenB5.l2.map "frag5").isSome = true := by
  decide

/-- Claim C2, counterexample: a successful `Put` of a 20-byte payload into
a cache whose slow-tier cap is 10 bytes leaves the slow tier holding 20
stored bytes — twice its configured cap, not strictly below it.  The
eviction loop runs before the insertion and never re-checks the cap
afterwards. -/
theorem C2_counterexample :
    (Put (initState cexC2config) "frag" (List.replicate 20 1) CacheLevel.L3_DISK true).1
      = true ∧
    cexC2state.config.max_l3_size = 10 ∧
    GetCurrentSize cexC2state CacheLevel.L3_DISK = 20 := by
  decide

/-- Claim C2 (corrected): `Put`'s eviction loop stops as soon as the target
tier is strictly under 90% of its cap (the code's `NeedEviction` test), and
only then inserts the new entry; hence after every `Put` (well-formed state,
positive cap) the target tier's bytes are strictly below 90% of the cap
plus the new entry's stored size.  The tier ends strictly below its cap only
when the new entry's stored size is at most 10% of the cap; an oversized
entry leaves the tier above its cap, and the loop's stopping rule is
`under 90% of cap`, not `under cap`. -/
theorem C2_put_cap_amended (s : CacheState) (k : String) (d : Bytes)
    (preferred : CacheLevel) (io : Bool) (hwf : WF s)
    (hcap : 0 < tierCap s.config (putTarget s d preferred)) :
    10 * GetCurrentSize (Put s k d preferred io).2 (putTarget s d preferred) <
      9 * tierCap s.config (putTarget s d preferred) +
      10 * (storedBytes s.config (putTarget s d preferred) d).length := by
  unfold Put
  dsimp only
  set t := putTarget s d preferred with ht
  set n := (getTier s t).lru.length + 1 with hn
  set s1 := evictLoop n s t with hs1
  have hcfg : s1.config = s.config := evictLoop_config n s t
  have hno : ¬ NeedEviction s1 t :=
    evictLoop_not_need n s t hwf hcap (by omega)
  have hsz : 10 * GetCurrentSize s1 t < 9 * tierCap s.config t := by
    unfold NeedEviction at hno
    rw [hcfg] at hno
    omega
  have hle := GetCurrentSize_PutToLevel_le s1 k d t io
  rw [hcfg] at hle
  omega

/-- Claim C2, witness for the amended theorem: a 2-byte `Put` into the
empty 10-byte-cap cache. -/
theorem C2_witness :
    10 * GetCurrentSize (Put (initState cexC2config) "w" [1, 2] CacheLevel.L2_RAM true).2
        (putTarget (initState cexC2config) [1, 2] CacheLevel.L2_RAM) <
      9 * tierCap (initState cexC2config).config
        (putTarget (initState cexC2config) [1, 2] CacheLevel.L2_RAM) +
      10 * (storedBytes (initState cexC2config).config
        (putTarget (initState cexC2config) [1, 2] CacheLevel.L2_RAM) [1, 2]).length :=
  C2_put_cap_amended (initState cexC2config) "w" [1, 2] CacheLevel.L2_RAM true
    (by decide) (by decide)

/-- Claim C4, counterexample: when a slow-tier `Put` for a key that already
has a slow-tier entry fails to persist, the rollback erases the freshly
inserted map entry — destroying the previous entry stored under the key.
The `Put` correctly returns failure, but the slow tier is not "the same as
before the Put": the pre-existing entry is gone. -/
theorem C4_counterexample :
    (Put cexC4pre "frag" [9] CacheLevel.L3_DISK false).1 = false ∧
    (lookupA cexC4pre.l3.map "frag").isSome = true ∧
    (lookupA (Put cexC4pre "frag" [9] CacheLevel.L3_DISK false).2.l3.map "frag").isSome
      = false := by
  decide

/-- Claim C4 (corrected): a slow-tier `Put` whose file write fails returns
failure and leaves the cache state exactly as before — the counters are
never touched and the inserted entry is rolled back — provided the key was
not already resident in the slow tier and no eviction was triggered (the
tier below 90% of its cap).  When the key was already resident, the failed
`Put` erases the previous entry (see the counterexample). -/
theorem C4_slowput_fail_amended (s : CacheState) (k : String) (d : Bytes)
    (hmap : lookupA s.l3.map k = none) (hlru : k ∉ s.l3.lru)
    (hne : ¬ NeedEviction s CacheLevel.L3_DISK) :
    Put s k d CacheLevel.L3_DISK false = (false, s) := by
  unfold Put
  dsimp only
  have hloop : evictLoop ((getTier s (putTarget s d CacheLevel.L3_DISK)).lru.length + 1) s
      (putTarget s d CacheLevel.L3_DISK) = s := by
    show evictLoop ((getTier s CacheLevel.L3_DISK).lru.length + 1) s CacheLevel.L3_DISK = s
    simp [evictLoop, hne]
  rw [hloop]
  show PutToLevel s k d CacheLevel.L3_DISK false = (false, s)
  unfold PutToLevel
  dsimp only
  rw [if_neg (by simp)]
  rw [eraseA_insertA_of_none s.l3.map k _ hmap]
  rw [lruAccess, List.erase_cons_head, List.erase_of_not_mem hlru]

/-- Claim C4, witness for the amended theorem: a failed slow-tier `Put` of
a fresh key into the empty cache returns failure and leaves the state
untouched. -/
theorem C4_witness :
    Put (initState cfg100) "frag" [1, 2] CacheLevel.L3_DISK false =
      (false, initState cfg100) :=
  C4_slowput_fail_amended (initState cfg100) "frag" [1, 2]
    (by decide) (by decide) (by decide)

/-- Claim C10: a `Put` that replaces an existing entry of the in-memory
Medium tier (no demotion: the payload fits; no eviction: the tier is under
its 90% threshold) keeps the tier's `EntryCount` unchanged, yet increments
the global `entry_count` by one and adds the full new stored size to
`total_size` without subtracting the replaced entry's size; if the counter
matched the number of live entries before, it exceeds it by one after.
Confirmed. -/
theorem C10_replacing_put (s : CacheState) (k : String) (d : Bytes)
    (hsome : (lookupA s.l2.map k).isSome = true)
    (hfit : GetCurrentSize s CacheLevel.L2_RAM + d.length ≤ s.config.max_l2_size)
    (hne : ¬ NeedEviction s CacheLevel.L2_RAM) :
    (Put s k d CacheLevel.L2_RAM true).1 = true ∧
    GetEntryCount (Put s k d CacheLevel.L2_RAM true).2 CacheLevel.L2_RAM =
      GetEntryCount s CacheLevel.L2_RAM ∧
    (Put s k d CacheLevel.L2_RAM true).2.entry_count = s.entry_count + 1 ∧
    (Put s k d CacheLevel.L2_RAM true).2.total_size = s.total_size + d.length ∧
    liveEntryCount (Put s k d CacheLevel.L2_RAM true).2 = liveEntryCount s ∧
    (s.entry_count = liveEntryCount s →
      (Put s k d CacheLevel.L2_RAM true).2.entry_count =
        liveEntryCount (Put s k d CacheLevel.L2_RAM true).2 + 1) := by
  have htarget : putTarget s d CacheLevel.L2_RAM = CacheLevel.L2_RAM := by
    unfold putTarget
    dsimp only
    rw [ite_self]
    exact if_neg (fun h => absurd h.2 (not_lt.2 hfit))
  have hloop : evictLoop ((getTier s CacheLevel.L2_RAM).lru.length + 1) s
      CacheLevel.L2_RAM = s := by
    simp [evictLoop, hne]
  unfold Put
  dsimp only
  rw [htarget, hloop]
  refine ⟨rfl, ?_, rfl, ?_, ?_, ?_⟩
  · show (insertA s.l2.map k _).length = s.l2.map.length
    exact length_insertA_of_isSome s.l2.map k _ hsome
  · show s.total_size + (storedBytes s.config CacheLevel.L2_RAM d).length =
      s.total_size + d.length
    rfl
  · show s.l1.map.length + (insertA s.l2.map k _).length + s.l3.map.length =
      s.l1.map.length + s.l2.map.length + s.l3.map.length
    rw [length_insertA_of_isSome s.l2.map k _ hsome]
  · intro hlive
    show s.entry_count + 1 =
      s.l1.map.length + (insertA s.l2.map k _).length + s.l3.map.length + 1
    rw [length_insertA_of_isSome s.l2.map k _ hsome]
    unfold liveEntryCount at hlive
    omega

/-- Claim C10, witness: replacing the 2-byte entry `frag` with a 3-byte one
keeps the Medium tier at one entry, sets `entry_count` to 2, and adds the
full 3 bytes to `total_size`. -/
theorem C10_witness :
    (Put w10pre "frag" [3, 4, 5] CacheLevel.L2_RAM true).1 = true ∧
    GetEntryCount (Put w10pre "frag" [3, 4, 5] CacheLevel.L2_RAM true).2
      CacheLevel.L2_RAM = GetEntryCount w10pre CacheLevel.L2_RAM ∧
    (Put w10pre "frag" [3, 4, 5] CacheLevel.L2_RAM true).2.entry_count =
      w10pre.entry_count + 1 ∧
    (Put w10pre "frag" [3, 4, 5] CacheLevel.L2_RAM true).2.total_size =
      w10pre.total_size + 3 ∧
    liveEntryCount (Put w10pre "frag" [3, 4, 5] CacheLevel.L2_RAM true).2 =
      liveEntryCount w10pre ∧
    (w10pre.entry_count = liveEntryCount w10pre →
      (Put w10pre "frag" [3, 4, 5] CacheLevel.L2_RAM true).2.entry_count =
        liveEntryCount (Put w10pre "frag" [3, 4, 5] CacheLevel.L2_RAM true).2 + 1) :=
  C10_replacing_put w10pre "frag" [3, 4, 5] (by decide) (by decide) (by decide)

/-- Claim C5: for a key resident only in the Slow tier (with its backing
file readable), a `Get` succeeds, returns the (transparently decompressed)
bytes, and — provided the Medium tier has free capacity for that payload —
afterwards the key is retrievable directly from the Medium tier with the
same bytes, while the Slow-tier copy is left in place.  Confirmed. -/
theorem C5_promotion (s : CacheState) (k : String) (e : CacheEntry) (raw : Bytes)
    (h1 : lookupA s.l1.map k = none) (h2 : lookupA s.l2.map k = none)
    (h3 : lookupA s.l3.map k = some e) (hf : lookupA s.files k = some raw)
    (hfit : GetCurrentSize s CacheLevel.L2_RAM +
        (if e.compressed then Decompress raw else raw).length ≤
        s.config.max_l2_size) :
    (Get s k).1 = true ∧
    (Get s k).2.1 = (if e.compressed then Decompress raw else raw) ∧
    (GetFromLevel ((Get s k).2.2) k CacheLevel.L2_RAM).1 = some ((Get s k).2.1) ∧
    (lookupA ((Get s k).2.2).l3.map k).isSome = true := by
  rw [Get_eq_L3path s k e raw h1 h2 h3 hf]
  refine ⟨rfl, rfl, ?_, ?_⟩
  · have hfit' : GetCurrentSize (l3HitState s k e) CacheLevel.L2_RAM +
        (if e.compressed then Decompress raw else raw).length ≤
        (l3HitState s k e).config.max_l2_size := hfit
    show (GetFromLevel (promoteIntoL2 (l3HitState s k e) k _) k CacheLevel.L2_RAM).1 = _
    unfold promoteIntoL2
    rw [if_pos hfit']
    unfold GetFromLevel PutToLevel
    dsimp only
    rw [lookupA_insertA_self]
    dsimp only
    rw [storedBytes_L2]
  · show (lookupA (promoteIntoL2 (l3HitState s k e) k _).l3.map k).isSome = true
    rw [promoteIntoL2_l3]
    unfold l3HitState
    dsimp only
    rw [lookupA_insertA_self]
    rfl

/-- Claim C5, witness: `Get "frag"` on the slow-tier-only state succeeds,
returns the decompressed original bytes, and promotes the key into the
Medium tier, leaving the Slow copy in place. -/
theorem C5_witness :
    (Get w5state "frag").1 = true ∧
    (Get w5state "frag").2.1 =
      (if w5entry.compressed then Decompress (Compress [1, 2, 3])
       else Compress [1, 2, 3]) ∧
    (GetFromLevel ((Get w5state "frag").2.2) "frag" CacheLevel.L2_RAM).1 =
      some ((Get w5state "frag").2.1) ∧
    (lookupA ((Get w5state "frag").2.2).l3.map "frag").isSome = true :=
  C5_promotion w5state "frag" w5entry (Compress [1, 2, 3])
    (by decide) (by decide) (by decide) (by decide) (by decide)

/-- Claim C8: the 10 MiB decompression buffer is a hard ceiling — for a
slow-tier entry stored compressed whose original payload exceeds
10·1024·1024 bytes, `Get` reports the entry as found but hands back the
still-compressed bytes (zlib `uncompress` fails and `Decompress` falls back
to returning its input), which differ from the original payload.
Confirmed. -/
theorem C8_decompression_ceiling (s : CacheState) (k : String) (e : CacheEntry)
    (b : Bytes)
    (h1 : lookupA s.l1.map k = none) (h2 : lookupA s.l2.map k = none)
    (h3 : lookupA s.l3.map k = some e) (he : e.compressed = true)
    (_hd : e.data = Compress b) (hf : lookupA s.files k = some (Compress b))
    (hb : MAX_DECOMPRESSED_SIZE < b.length) :
    (Get s k).1 = true ∧
    (Get s k).2.1 = Compress b ∧
    (Get s k).2.1 ≠ b := by
  rw [Get_eq_L3path s k e (Compress b) h1 h2 h3 hf]
  rw [if_pos he, Decompress_Compress_big b hb]
  exact ⟨rfl, rfl, Compress_ne b⟩

/-- Claim C8, witness: a slow-tier entry whose original payload is
10·1024·1024 + 1 bytes is reported found, yet `Get` returns the compressed
bytes, which differ from the original. -/
theorem C8_witness :
    (Get w8state "frag").1 = true ∧
    (Get w8state "frag").2.1 = Compress w8orig ∧
    (Get w8state "frag").2.1 ≠ w8orig :=
  C8_decompression_ceiling w8state "frag" w8entry w8orig rfl rfl rfl rfl rfl rfl
    (by
      show MAX_DECOMPRESSED_SIZE <
        (List.replicate (MAX_DECOMPRESSED_SIZE + 1) 7).length
      rw [List.length_replicate]
      omega)

/-- Claim C1, counterexample: key `frag` holds bytes `[1]` in the Fast tier;
a `Put` of `[2]` with preferred tier Medium succeeds and stores `[2]` in the
Medium tier, but the immediately following `Get` hits the stale Fast-tier
copy first and returns `[1]`, not the bytes just written. -/
theorem C1_counterexample :
    (Put cexC1a "frag" [2] CacheLevel.L2_RAM true).1 = true ∧
    (Get cexC1b "frag").1 = true ∧
    (Get cexC1b "frag").2.1 = [1] ∧
    ([1] : Bytes) ≠ [2] := by
  decide

/-- Claim C1 (corrected): `Put(K, B)` immediately followed by `Get(K)`
succeeds and returns bytes equal to B, for every tier the entry lands in
and whether or not compression was applied — provided K is not resident in
a tier faster than the tier the `Put` targets (a stale faster-tier copy
would shadow the new value), and, when compression is applied to the entry,
B is at most 10·1024·1024 bytes (beyond the decompression buffer the bytes
come back still compressed, claim C8). -/
theorem C1_roundtrip_amended (s : CacheState) (k : String) (d : Bytes)
    (preferred : CacheLevel)
    (hfresh1 : putTarget s d preferred ≠ CacheLevel.L1_GPU →
      lookupA s.l1.map k = none)
    (hfresh2 : putTarget s d preferred = CacheLevel.L3_DISK →
      lookupA s.l2.map k = none)
    (hcomp : shouldCompress s.config (putTarget s d preferred) d = true →
      d.length ≤ MAX_DECOMPRESSED_SIZE) :
    (Get (Put s k d preferred true).2 k).1 = true ∧
    (Get (Put s k d preferred true).2 k).2.1 = d := by
  cases hT : putTarget s d preferred with
  | L1_GPU =>
      unfold Put
      dsimp only
      rw [hT]
      set s1 := evictLoop ((getTier s CacheLevel.L1_GPU).lru.length + 1) s
        CacheLevel.L1_GPU with hs1
      set e1 : CacheEntry :=
        { data := storedBytes s1.config CacheLevel.L1_GPU d,
          size := (storedBytes s1.config CacheLevel.L1_GPU d).length,
          last_access := s1.now, creation_time := s1.now, access_count := 1,
          compressed := shouldCompress s1.config CacheLevel.L1_GPU d,
          level := CacheLevel.L1_GPU, key := k } with he1
      rw [Get_eq_L1path ((PutToLevel s1 k d CacheLevel.L1_GPU true).2) k e1
        (lookupA_insertA_self s1.l1.map k e1)]
      refine ⟨rfl, ?_⟩
      show storedBytes s1.config CacheLevel.L1_GPU d = d
      exact storedBytes_L1 _ _
  | L2_RAM =>
      have hm1s : lookupA s.l1.map k = none := by
        apply hfresh1
        rw [hT]
        decide
      unfold Put
      dsimp only
      rw [hT]
      set s1 := evictLoop ((getTier s CacheLevel.L2_RAM).lru.length + 1) s
        CacheLevel.L2_RAM with hs1
      have hm1 : lookupA s1.l1.map k = none := by
        rw [hs1]
        exact evictLoop_lookup_l1_none _ _ _ _ hm1s
      set e2 : CacheEntry :=
        { data := storedBytes s1.config CacheLevel.L2_RAM d,
          size := (storedBytes s1.config CacheLevel.L2_RAM d).length,
          last_access := s1.now, creation_time := s1.now, access_count := 1,
          compressed := shouldCompress s1.config CacheLevel.L2_RAM d,
          level := CacheLevel.L2_RAM, key := k } with he2
      rw [Get_eq_L2path ((PutToLevel s1 k d CacheLevel.L2_RAM true).2) k e2
        hm1 (lookupA_insertA_self s1.l2.map k e2)]
      refine ⟨rfl, ?_⟩
      show storedBytes s1.config CacheLevel.L2_RAM d = d
      exact storedBytes_L2 _ _
  | L3_DISK =>
      have hm1s : lookupA s.l1.map k = none := by
        apply hfresh1
        rw [hT]
        decide
      have hm2s : lookupA s.l2.map k = none := hfresh2 hT
      unfold Put
      dsimp only
      rw [hT]
      set s1 := evictLoop ((getTier s CacheLevel.L3_DISK).lru.length + 1) s
        CacheLevel.L3_DISK with hs1
      have hm1 : lookupA s1.l1.map k = none := by
        rw [hs1]
        exact evictLoop_lookup_l1_none _ _ _ _ hm1s
      have hm2 : lookupA s1.l2.map k = none := by
        rw [hs1]
        exact evictLoop_lookup_l2_none _ _ _ _ hm2s
      have hcfg : s1.config = s.config := by
        rw [hs1]
        exact evictLoop_config _ _ _
      set st := storedBytes s1.config CacheLevel.L3_DISK d with hst
      set e3 : CacheEntry :=
        { data := st, size := st.length,
          last_access := s1.now, creation_time := s1.now, access_count := 1,
          compressed := shouldCompress s1.config CacheLevel.L3_DISK d,
          level := CacheLevel.L3_DISK, key := k } with he3
      rw [Get_eq_L3path ((PutToLevel s1 k d CacheLevel.L3_DISK true).2) k e3 st
        hm1 hm2 (lookupA_insertA_self s1.l3.map k e3)
        (lookupA_insertA_self s1.files k st)]
      refine ⟨rfl, ?_⟩
      rcases Bool.dichotomy (shouldCompress s1.config CacheLevel.L3_DISK d) with hsc | hsc
      · have hstd : st = d := by
          rw [hst]
          unfold storedBytes
          rw [hsc]
          rfl
        have hec : ¬ (e3.compressed = true) := by
          show ¬ (shouldCompress s1.config CacheLevel.L3_DISK d = true)
          rw [hsc]
          exact Bool.false_ne_true
        rw [if_neg hec, hstd]
      · have hstc : st = Compress d := by
          rw [hst]
          unfold storedBytes
          rw [hsc]
          rfl
        have hec : e3.compressed = true := by
          show shouldCompress s1.config CacheLevel.L3_DISK d = true
          exact hsc
        have hlen : d.length ≤ MAX_DECOMPRESSED_SIZE := by
          apply hcomp
          rw [hT, ← hcfg]
          exact hsc
        rw [if_pos hec, hstc, Decompress_Compress_eq d hlen]

/-- Claim C1, witness for the amended theorem: a fresh 3-byte entry written
with preferred tier Medium reads back unchanged. -/
theorem C1_witness :
    (Get (Put (initState cfg100) "frag" [1, 2, 3] CacheLevel.L2_RAM true).2 "frag").1
      = true ∧
    (Get (Put (initState cfg100) "frag" [1, 2, 3] CacheLevel.L2_RAM true).2 "frag").2.1
      = [1, 2, 3] :=
  C1_roundtrip_amended (initState cfg100) "frag" [1, 2, 3] CacheLevel.L2_RAM
    (by decide) (by decide) (by decide)

theorem foldRemove_WF (L : List String) :
    ∀ s : CacheState, WF s → WF (L.foldl (fun st k => (Remove st k).2) s) := by
  induction L with
  | nil => exact fun s h => h
  | cons a L ih => exact fun s h => ih ((Remove s a).2) (Remove_WF s a h)

theorem foldRemove_keeps_absent (L : List String) :
    ∀ (s : CacheState) (k : String),
    lookupA s.l1.map k = none → lookupA s.l2.map k = none →
    lookupA s.l3.map k = none →
    k ∉ s.l1.lru → k ∉ s.l2.lru → k ∉ s.l3.lru →
    lookupA (L.foldl (fun st k => (Remove st k).2) s).l1.map k = none ∧
    lookupA (L.foldl (fun st k => (Remove st k).2) s).l2.map k = none ∧
    lookupA (L.foldl (fun st k => (Remove st k).2) s).l3.map k = none ∧
    k ∉ (L.foldl (fun st k => (Remove st k).2) s).l1.lru ∧
    k ∉ (L.foldl (fun st k => (Remove st k).2) s).l2.lru ∧
    k ∉ (L.foldl (fun st k => (Remove st k).2) s).l3.lru := by
  induction L with
  | nil => exact fun s k a1 a2 a3 b1 b2 b3 => ⟨a1, a2, a3, b1, b2, b3⟩
  | cons a L ih =>
      intro s k a1 a2 a3 b1 b2 b3
      exact ih ((Remove s a).2) k
        (Remove_lookup_l1_none s a k a1) (Remove_lookup_l2_none s a k a2)
        (Remove_lookup_l3_none s a k a3) (Remove_notmem_l1 s a k b1)
        (Remove_notmem_l2 s a k b2) (Remove_notmem_l3 s a k b3)

theorem foldRemove_absent (L : List String) :
    ∀ (s : CacheState) (k : String), WF s → k ∈ L →
    lookupA (L.foldl (fun st k => (Remove st k).2) s).l1.map k = none ∧
    lookupA (L.foldl (fun st k => (Remove st k).2) s).l2.map k = none ∧
    lookupA (L.foldl (fun st k => (Remove st k).2) s).l3.map k = none ∧
    k ∉ (L.foldl (fun st k => (Remove st k).2) s).l1.lru ∧
    k ∉ (L.foldl (fun st k => (Remove st k).2) s).l2.lru ∧
    k ∉ (L.foldl (fun st k => (Remove st k).2) s).l3.lru := by
  induction L with
  | nil =>
      intro s k _ hk
      exact absurd hk (List.not_mem_nil k)
  | cons a L ih =>
      intro s k hwf hk
      by_cases hka : k = a
      · subst hka
        obtain ⟨c1, c2, c3, d1, d2, d3⟩ := Remove_absent s k hwf
        exact foldRemove_keeps_absent L ((Remove s k).2) k c1 c2 c3 d1 d2 d3
      · rcases List.mem_cons.1 hk with h | h
        · exact absurd h hka
        · exact ih ((Remove s a).2) k (Remove_WF s a hwf) h

theorem foldRemove_other (L : List String) :
    ∀ (s : CacheState) (k : String), k ∉ L →
    lookupA (L.foldl (fun st k => (Remove st k).2) s).l1.map k = lookupA s.l1.map k ∧
    lookupA (L.foldl (fun st k => (Remove st k).2) s).l2.map k = lookupA s.l2.map k ∧
    lookupA (L.foldl (fun st k => (Remove st k).2) s).l3.map k = lookupA s.l3.map k := by
  induction L with
  | nil => exact fun s k _ => ⟨rfl, rfl, rfl⟩
  | cons a L ih =>
      intro s k hk
      have hka : k ≠ a := fun h => hk (h ▸ List.mem_cons_self a L)
      have hkL : k ∉ L := fun h => hk (List.mem_cons_of_mem a h)
      obtain ⟨r1, r2, r3⟩ := ih ((Remove s a).2) k hkL
      exact ⟨r1.trans (Remove_lookup_l1_ne s a k hka),
             r2.trans (Remove_lookup_l2_ne s a k hka),
             r3.trans (Remove_lookup_l3_ne s a k hka)⟩

/-- Claim C6, counterexample: the cache holds key `frag` in both the Fast
and Medium tiers (the Fast copy freshly accessed, hence not expired); the
Medium copy is older than `max_age`, so the sweep collects `frag` — and
`Remove` deletes the key from every tier, including the fresh Fast-tier
entry.  The Fast tier is not exempt from the sweep's removals. -/
theorem C6_counterexample :
    (lookupA c6s5.l1.map "frag").isSome = true ∧
    (Option.map (fun e => IsExpired c6s5 e) (lookupA c6s5.l1.map "frag")) =
      some false ∧
    (Option.map (fun e => IsExpired c6s5 e) (lookupA c6s5.l2.map "frag")) =
      some true ∧
    lookupA (CleanupExpired c6s5).l1.map "frag" = none := by
  decide

/-- Claim C6 (corrected): each background expiry cycle removes precisely the
keys that have an expired Medium- or Slow-tier entry — but it removes each
such key from all three tiers, including any Fast-tier copy (the scan skips
the Fast tier, yet the removal path does not): afterward every collected key
is absent from every tier's map and LRU index, while keys with no expired
Medium/Slow entry keep all their entries, Fast-tier entries included. -/
theorem C6_cleanup_amended (s : CacheState) (hwf : WF s) :
    (∀ k, k ∈ expiredKeys s →
      lookupA (CleanupExpired s).l1.map k = none ∧
      lookupA (CleanupExpired s).l2.map k = none ∧
      lookupA (CleanupExpired s).l3.map k = none ∧
      k ∉ (CleanupExpired s).l1.lru ∧
      k ∉ (CleanupExpired s).l2.lru ∧
      k ∉ (CleanupExpired s).l3.lru) ∧
    (∀ k, k ∉ expiredKeys s →
      lookupA (CleanupExpired s).l1.map k = lookupA s.l1.map k ∧
      lookupA (CleanupExpired s).l2.map k = lookupA s.l2.map k ∧
      lookupA (CleanupExpired s).l3.map k = lookupA s.l3.map k) :=
  ⟨fun k hk => foldRemove_absent (expiredKeys s) s k hwf hk,
   fun k hk => foldRemove_other (expiredKeys s) s k hk⟩

/-- Claim C6, witness for the amended theorem: on the traced state, `frag`
has an expired Medium entry, and after one sweep it is gone from every
tier's map and LRU index. -/
theorem C6_witness :
    lookupA (CleanupExpired c6s5).l1.map "frag" = none ∧
    lookupA (CleanupExpired c6s5).l2.map "frag" = none ∧
    lookupA (CleanupExpired c6s5).l3.map "frag" = none ∧
    "frag" ∉ (CleanupExpired c6s5).l1.lru ∧
    "frag" ∉ (CleanupExpired c6s5).l2.lru ∧
    "frag" ∉ (CleanupExpired c6s5).l3.lru :=
  (C6_cleanup_amended c6s5 (by decide)).1 "frag" (by decide)

theorem promoteIntoL1_hits (s : CacheState) (k : String) (d : Bytes) :
    (promoteIntoL1 s k d).hits = s.hits := by
  unfold promoteIntoL1
  split
  · exact PutToLevel_hits s k d CacheLevel.L1_GPU true
  · rfl

theorem promoteIntoL1_misses (s : CacheState) (k : String) (d : Bytes) :
    (promoteIntoL1 s k d).misses = s.misses := by
  unfold promoteIntoL1
  split
  · exact PutToLevel_misses s k d CacheLevel.L1_GPU true
  · rfl

theorem promoteIntoL2_hits (s : CacheState) (k : String) (d : Bytes) :
    (promoteIntoL2 s k d).hits = s.hits := by
  unfold promoteIntoL2
  split
  · exact PutToLevel_hits s k d CacheLevel.L2_RAM true
  · rfl

theorem promoteIntoL2_misses (s : CacheState) (k : String) (d : Bytes) :
    (promoteIntoL2 s k d).misses = s.misses := by
  unfold promoteIntoL2
  split
  · exact PutToLevel_misses s k d CacheLevel.L2_RAM true
  · rfl

theorem Get_stats_step (s : CacheState) (k : String) :
    ((Get s k).2.2).hits = s.hits + (if (Get s k).1 then 1 else 0) ∧
    ((Get s k).2.2).misses = s.misses + (if (Get s k).1 then 0 else 1) := by
  unfold Get
  dsimp only
  cases hr1 : (GetFromLevel s k CacheLevel.L1_GPU).1 with
  | some d =>
      simp [GetFromLevel_hits, GetFromLevel_misses]
  | none =>
      cases hr2 : (GetFromLevel (GetFromLevel s k CacheLevel.L1_GPU).2 k
          CacheLevel.L2_RAM).1 with
      | some d =>
          simp [promoteIntoL1_hits, promoteIntoL1_misses,
            GetFromLevel_hits, GetFromLevel_misses]
      | none =>
          cases hr3 : (GetFromLevel (GetFromLevel (GetFromLevel s k
              CacheLevel.L1_GPU).2 k CacheLevel.L2_RAM).2 k CacheLevel.L3_DISK).1 with
          | some d =>
              simp [promoteIntoL2_hits, promoteIntoL2_misses,
                GetFromLevel_hits, GetFromLevel_misses]
          | none =>
              simp [GetFromLevel_hits, GetFromLevel_misses]

theorem runGets_stats (ks : List String) :
    ∀ s : CacheState,
    (runGets s ks).1.hits = s.hits + (runGets s ks).2.1 ∧
    (runGets s ks).1.misses = s.misses + (runGets s ks).2.2 := by
  induction ks with
  | nil =>
      intro s
      exact ⟨rfl, rfl⟩
  | cons a ks ih =>
      intro s
      have hstep := Get_stats_step s a
      have hrec := ih ((Get s a).2.2)
      unfold runGets
      dsimp only
      constructor
      · rw [hrec.1, hstep.1]
        omega
      · rw [hrec.2, hstep.2]
        omega

/-- Claim C7: starting from zeroed hit/miss counters, after any sequence of
`Get` calls of which N hit and M missed, the statistics report `hits = N`,
`misses = M`, and a hit rate of N/(N+M) (0 when N+M = 0; the `double`
division of `GetHitRatio` is modelled exactly in `ℚ`).  Confirmed. -/
theorem C7_stats_consistent (s : CacheState) (ks : List String)
    (h1 : s.hits = 0) (h2 : s.misses = 0) :
    (runGets s ks).1.hits = (runGets s ks).2.1 ∧
    (runGets s ks).1.misses = (runGets s ks).2.2 ∧
    GetHitRate (runGets s ks).1 =
      (if (runGets s ks).2.1 + (runGets s ks).2.2 = 0 then 0
       else ((runGets s ks).2.1 : ℚ) /
         (((runGets s ks).2.1 : ℚ) + ((runGets s ks).2.2 : ℚ))) := by
  have hst := runGets_stats ks s
  have hh : (runGets s ks).1.hits = (runGets s ks).2.1 := by
    rw [hst.1, h1, Nat.zero_add]
  have hm : (runGets s ks).1.misses = (runGets s ks).2.2 := by
    rw [hst.2, h2, Nat.zero_add]
  refine ⟨hh, hm, ?_⟩
  unfold GetHitRate
  rw [hh, hm]
  by_cases h0 : (runGets s ks).2.1 + (runGets s ks).2.2 = 0
  · rw [if_neg (by omega), if_pos h0]
  · rw [if_pos (by omega), if_neg h0]

/-- Claim C7, witness: a two-`Get` run (one hit, one miss) reports one hit,
one miss, and hit rate 1/2. -/
theorem C7_witness :
    (runGets w7base w7keys).1.hits = (runGets w7base w7keys).2.1 ∧
    (runGets w7base w7keys).1.misses = (runGets w7base w7keys).2.2 ∧
    GetHitRate (runGets w7base w7keys).1 =
      (if (runGets w7base w7keys).2.1 + (runGets w7base w7keys).2.2 = 0 then 0
       else ((runGets w7base w7keys).2.1 : ℚ) /
         (((runGets w7base w7keys).2.1 : ℚ) + ((runGets w7base w7keys).2.2 : ℚ))) :=
  C7_stats_consistent w7base w7keys (by decide) (by decide)

end WxeUI
